import Mathlib

/-!
# Verification of the `GeneSetDB` component of genometools

Shallow embedding of `src/genometools/basic/genesetdb.py`.

* Python's `OrderedDict` (insertion-ordered, overwrite-in-place on duplicate
  key) is embedded as an association list `List (String × α)` built with
  `odInsert` / `odFromList`.
* Python exceptions are embedded as an explicit error type `PyError`; fallible
  operations return `Except PyError _`.
* Python `tuple` indexing (which accepts negative indices) is embedded by
  `pyTupleGet` over `Int` indices.
* The `GeneSet` record class is not part of the sources at hand (only its
  caller `GeneSetDB` is), so it is modelled from the spec where marked.
-/

/-- The kinds of Python exception raised by the code under study.
`valueError` and `indexError` / `keyError` are distinct error kinds;
`assertionError` arises from a failed `assert` statement. -/
inductive PyError where
  | valueError (msg : String)
  | indexError (msg : String)
  | keyError (msg : String)
  | assertionError
deriving DecidableEq, Repr

/-- Modelled from the spec: the `GeneSet` record class is not among the given
source files (only its caller `GeneSetDB` is). Per the spec a record is "a
gene set: id, display name, ordered list of member gene symbols, source,
collection/category, free-text description": a plain value object. -/
structure GeneSet where
  id : String
  name : String
  genes : List String
  source : String
  collection : String
  description : String
deriving DecidableEq, Repr

/-- Modelled from the spec: `GeneSet.to_list` is not among the given source
files. Per the spec "each record maps to exactly one line of tab-separated
fields" with "field order defined per record type"; the record's fields are
laid out in a fixed order, the member genes as the trailing fields. -/
def GeneSet.to_list (gs : GeneSet) : List String :=
  [gs.id, gs.name, gs.source, gs.collection, gs.description] ++ gs.genes

/-- Modelled from the spec: `GeneSet.from_list` is not among the given source
files. It parses one line of fields back into a record, inverting
`GeneSet.to_list` on well-formed lines. -/
def GeneSet.from_list (l : List String) : GeneSet :=
  match l with
  | id_ :: name :: src :: coll :: desc :: genes =>
      ⟨id_, name, genes, src, coll, desc⟩
  | _ => ⟨"", "", [], "", "", ""⟩

/-- Lookup in a Python (ordered) dict embedded as an association list:
first (= only, when keys are distinct) binding wins. -/
def odLookup (l : List (String × α)) (k : String) : Option α :=
  match l with
  | [] => none
  | (k', v) :: rest => if k' = k then some v else odLookup rest k

/-- `d[k] = v` on a Python `OrderedDict`: overwrite in place if the key is
present (keeping its original position), else append at the end. -/
def odInsert (l : List (String × α)) (k : String) (v : α) : List (String × α) :=
  match l with
  | [] => [(k, v)]
  | (k', v') :: rest =>
      if k' = k then (k, v) :: rest else (k', v') :: odInsert rest k v

/-- Building an `OrderedDict` from a sequence of key/value pairs: the pairs
are inserted left to right. -/
def odFromList (ps : List (String × α)) : List (String × α) :=
  ps.foldl (fun d p => odInsert d p.1 p.2) []

/-- The `GeneSetDB` class. Its state is the `OrderedDict` `self._gene_sets`
mapping gene-set IDs to gene sets; the attributes `_gene_set_ids` and
`_gene_set_indices` computed by `__init__` are deterministic functions of it
and are embedded as the definitions below. -/
structure GeneSetDB where
  gsDict : List (String × GeneSet)
deriving DecidableEq, Repr

/-- `GeneSetDB.__init__` (the part after its `assert` statements):
`self._gene_sets = OrderedDict([gs.id, gs] for gs in gene_sets)`. -/
def GeneSetDB.init (gene_sets : List GeneSet) : GeneSetDB :=
  ⟨odFromList (gene_sets.map (fun gs => (gs.id, gs)))⟩

/-- `self._gene_set_ids = tuple(self._gene_sets.keys())`. -/
def GeneSetDB.gene_set_ids (db : GeneSetDB) : List String :=
  db.gsDict.map Prod.fst

/-- Python's `enumerate(xs)` starting at index `s`. -/
def pyEnumerateFrom (s : Nat) : List α → List (Nat × α)
  | [] => []
  | a :: as => (s, a) :: pyEnumerateFrom (s + 1) as

/-- Python's `enumerate(xs)`. -/
def pyEnumerate (l : List α) : List (Nat × α) :=
  pyEnumerateFrom 0 l

/-- `self._gene_set_indices = OrderedDict([gs.id, i] for i, gs in
enumerate(self._gene_sets.itervalues()))`. -/
def GeneSetDB.gene_set_indices (db : GeneSetDB) : List (String × Nat) :=
  odFromList ((pyEnumerate (db.gsDict.map Prod.snd)).map (fun p => (p.2.id, p.1)))

/-- The `gene_sets` property: `tuple(self._gene_sets.values())`. -/
def GeneSetDB.gene_sets (db : GeneSetDB) : List GeneSet :=
  db.gsDict.map Prod.snd

/-- The `n` property: `len(self._gene_sets)`. -/
def GeneSetDB.n (db : GeneSetDB) : Nat :=
  db.gsDict.length

/-- `GeneSetDB.get_by_id`: dict lookup, turning the `KeyError` of a missing
key into a `ValueError` with the message from the source. -/
def GeneSetDB.get_by_id (db : GeneSetDB) (id_ : String) : Except PyError GeneSet :=
  match odLookup db.gsDict id_ with
  | some gs => .ok gs
  | none => .error (.valueError ("No gene set with ID \"" ++ id_ ++ "\"!"))

/-- CPython's normalization of a signed sequence index: a negative index has
the length added to it before the bounds check. -/
def pyNormIdx (i : Int) (len : Nat) : Int :=
  if i < 0 then i + (len : Int) else i

/-- Python `tuple` indexing `t[i]` for a signed index: a negative index
counts from the end; out of range raises `IndexError`. -/
def pyTupleGet (l : List α) (i : Int) : Except PyError α :=
  if h : 0 ≤ pyNormIdx i l.length ∧ pyNormIdx i l.length < (l.length : Int) then
    .ok (l.get ⟨(pyNormIdx i l.length).toNat, by
      have := h.2
      omega⟩)
  else
    .error (.indexError "tuple index out of range")

/-- `GeneSetDB.get_by_index`: reject `i >= self.n` with a `ValueError`, then
evaluate `self._gene_sets[self._gene_set_ids[i]]`. The index is a Python
`int`, so negative values pass the bounds test and index from the end. -/
def GeneSetDB.get_by_index (db : GeneSetDB) (i : Int) : Except PyError GeneSet :=
  if i ≥ (db.n : Int) then
    .error (.valueError ("Index " ++ toString i ++ " out of bounds " ++
      "for database with " ++ toString db.n ++ " gene sets."))
  else
    match pyTupleGet db.gene_set_ids i with
    | .error e => .error e
    | .ok key =>
        match odLookup db.gsDict key with
        | some gs => .ok gs
        | none => .error (.keyError key)

/-- `GeneSetDB.index`: dict lookup in `self._gene_set_indices`, turning a
`KeyError` into a `ValueError` with the message from the source. -/
def GeneSetDB.index (db : GeneSetDB) (id_ : String) : Except PyError Nat :=
  match odLookup db.gene_set_indices id_ with
  | some i => .ok i
  | none => .error (.valueError ("No gene set with ID \"" ++ id_ ++ "\"!"))

/-- A dynamically typed Python value, rich enough to state the type checks of
`GeneSetDB.__init__`. -/
inductive PyVal where
  | geneSet (gs : GeneSet)
  | str (s : String)
  | int (i : Int)
  | list (xs : List PyVal)
  | tuple (xs : List PyVal)
  | none

/-- `isinstance(v, GeneSet)`. -/
def PyVal.isGeneSet : PyVal → Bool
  | .geneSet _ => true
  | _ => false

/-- Extract the underlying `GeneSet` records from a list of Python values
that are all `GeneSet` instances. -/
def PyVal.extractGeneSets (xs : List PyVal) : List GeneSet :=
  xs.filterMap (fun v =>
    match v with
    | .geneSet gs => some gs
    | _ => Option.none)

/-- `GeneSetDB.__init__` with its `assert` statements: the argument must be a
`list` or `tuple` whose elements are all `GeneSet` instances, otherwise an
`AssertionError` is raised; then the database is built. -/
def GeneSetDB.initChecked (v : PyVal) : Except PyError GeneSetDB :=
  match v with
  | .list xs =>
      if xs.all PyVal.isGeneSet then .ok (GeneSetDB.init (PyVal.extractGeneSets xs))
      else .error .assertionError
  | .tuple xs =>
      if xs.all PyVal.isGeneSet then .ok (GeneSetDB.init (PyVal.extractGeneSets xs))
      else .error .assertionError
  | _ => .error .assertionError

/-- `GeneSetDB.write_tsv`: one row of fields per gene set, iterating
`self._gene_sets.itervalues()` in order. The third-party `unicodecsv` layer is
embedded as faithful transport of rows of fields. -/
def GeneSetDB.write_tsv (db : GeneSetDB) : List (List String) :=
  (db.gsDict.map Prod.snd).map GeneSet.to_list

/-- `GeneSetDB.read_tsv`: build one `GeneSet` per row via
`GeneSet.from_list`, then construct the database from the list. -/
def GeneSetDB.read_tsv (rows : List (List String)) : GeneSetDB :=
  GeneSetDB.init (rows.map GeneSet.from_list)

/-- One top-level entry of the MSigDB XML document, with exactly the fields
`handle_item` consumes out of `data = pth[1][1]`. `members_ezid` is the raw
comma-separated `MEMBERS_EZID` string. -/
structure MSigDBEntry where
  organism : String
  systematic_name : String
  standard_name : String
  category_code : String
  description_brief : String
  members_ezid : String
deriving DecidableEq, Repr

/-- Splitting a character list at every occurrence of a separator character;
the list of fragments is never empty and keeps empty fragments, matching
Python's `str.split` with an explicit separator. -/
def splitCharsOn (sep : Char) : List Char → List (List Char)
  | [] => [[]]
  | c :: cs =>
      if c = sep then [] :: splitCharsOn sep cs
      else
        match splitCharsOn sep cs with
        | [] => [[c]]
        | g :: gs => (c :: g) :: gs

/-- Python's `s.split(',')`: in particular `''.split(',') == ['']`. -/
def pySplitComma (s : String) : List String :=
  (splitCharsOn ',' s.data).map (fun cs => String.mk cs)

/-- The mutable cells shared by `read_msigdb_xml` and its `handle_item`
callback: the counters `total_gs[0]`, `total_genes[0]`, `species_excl[0]`,
`unknown_entrezid[0]` and the accumulated `gene_sets` list. -/
structure MsigState where
  total_gs : Nat
  total_genes : Nat
  species_excl : Nat
  unknown_entrezid : Nat
  gene_sets : List GeneSet
deriving DecidableEq, Repr

/-- The initial state of one `read_msigdb_xml` run. -/
def MsigState.start : MsigState := ⟨0, 0, 0, 0, []⟩

/-- The inner loop of `handle_item`: `for e in entrez: total_genes += 1;
try: genes.append(entrez2gene[e]) except KeyError: unknown_entrezid += 1`.
Returns the collected `genes` together with the two updated counters.
The `entrez2gene` dict is embedded as its lookup function. -/
def msigMapGenes (entrez2gene : String → Option String) (entrez : List String)
    (total_genes unknown_entrezid : Nat) : List String × Nat × Nat :=
  entrez.foldl
    (fun acc e =>
      match entrez2gene e with
      | some g => (acc.1 ++ [g], acc.2.1 + 1, acc.2.2)
      | none => (acc.1, acc.2.1 + 1, acc.2.2 + 1))
    ([], total_genes, unknown_entrezid)

/-- The part of `handle_item` after the species filter: split and map the
Entrez IDs, skip the entry if no gene mapped, else append the new `GeneSet`
(with `source = 'MSigDB'`). -/
def handle_body (entrez2gene : String → Option String) (st : MsigState)
    (data : MSigDBEntry) : MsigState :=
  let entrez := pySplitComma data.members_ezid
  let r := msigMapGenes entrez2gene entrez st.total_genes st.unknown_entrezid
  let st := { st with total_genes := r.2.1, unknown_entrezid := r.2.2 }
  if r.1.isEmpty then
    st
  else
    { st with gene_sets := st.gene_sets ++
        [⟨data.systematic_name, data.standard_name, r.1, "MSigDB",
          data.category_code, data.description_brief⟩] }

/-- The `handle_item` callback for one entry: count it, apply the species
filter, then run `handle_body`. -/
def handle_item (entrez2gene : String → Option String) (species : Option String)
    (st : MsigState) (data : MSigDBEntry) : MsigState :=
  let st := { st with total_gs := st.total_gs + 1 }
  match species with
  | some sp =>
      if data.organism ≠ sp then
        { st with species_excl := st.species_excl + 1 }
      else
        handle_body entrez2gene st data
  | none => handle_body entrez2gene st data

/-- The streaming parse of `read_msigdb_xml`: `handle_item` is invoked once
per top-level entry, in document order. -/
def msigdbRun (entrez2gene : String → Option String) (species : Option String)
    (entries : List MSigDBEntry) : MsigState :=
  entries.foldl (handle_item entrez2gene species) MsigState.start

/-- `GeneSetDB.read_msigdb_xml`: stream the entries through `handle_item`
and build the database from the collected gene sets (`cls(gene_sets)`). -/
def GeneSetDB.read_msigdb_xml (entrez2gene : String → Option String)
    (species : Option String) (entries : List MSigDBEntry) : GeneSetDB :=
  GeneSetDB.init (msigdbRun entrez2gene species entries).gene_sets

/-- The binding a `dict` built from a pair sequence ends up with: the value
of the LAST pair carrying the key. -/
def lastAssoc : List (String × α) → String → Option α
  | [], _ => none
  | p :: rest, k =>
      match lastAssoc rest k with
      | some v => some v
      | none => if p.1 = k then some p.2 else none

/-- The invariant every database built by `GeneSetDB.init` satisfies: dict
keys are pairwise distinct, and each binding's key is its gene set's `id`. -/
def GeneSetDB.wf (db : GeneSetDB) : Prop :=
  (db.gsDict.map Prod.fst).Nodup ∧ ∀ p ∈ db.gsDict, p.1 = p.2.id

/-- The record a duplicate-tolerant build keeps for an identifier: the LAST
gene set of the input list carrying it. -/
def lastWithId : List GeneSet → String → Option GeneSet
  | [], _ => none
  | gs :: rest, k =>
      match lastWithId rest k with
      | some g => some g
      | none => if gs.id = k then some gs else none

/-- The display names an entry's comma-separated Entrez IDs map to, in
order, dropping unmapped IDs. -/
def entryGenes (entrez2gene : String → Option String)
    (data : MSigDBEntry) : List String :=
  (pySplitComma data.members_ezid).filterMap entrez2gene

/-- Whether an entry passes the species filter of `handle_item`. -/
def speciesPass (species : Option String) (data : MSigDBEntry) : Bool :=
  match species with
  | some sp => data.organism = sp
  | none => true

/-- The gene set an entry yields once past the species filter: skipped when
no Entrez ID mapped, else built with the mapped display names as members. -/
def entryGeneSet (entrez2gene : String → Option String)
    (data : MSigDBEntry) : Option GeneSet :=
  if entryGenes entrez2gene data = [] then
    none
  else
    some ⟨data.systematic_name, data.standard_name,
      entryGenes entrez2gene data, "MSigDB",
      data.category_code, data.description_brief⟩

/-- The gene set one entry contributes to a run, species filter included. -/
def processEntry (entrez2gene : String → Option String)
    (species : Option String) (data : MSigDBEntry) : Option GeneSet :=
  if speciesPass species data then entryGeneSet entrez2gene data else none

/-- Concrete records used to exercise the theorems on closed inputs. -/
def gsA : GeneSet := ⟨"GS-A", "Set A", ["TP53", "BRCA1"], "curated", "C2", "first"⟩

/-- A second concrete record with a distinct identifier. -/
def gsB : GeneSet := ⟨"GS-B", "Set B", ["EGFR"], "curated", "C5", "second"⟩

/-- A record sharing `gsB`'s identifier but differing elsewhere. -/
def gsB2 : GeneSet := ⟨"GS-B", "Set B bis", ["KRAS"], "curated", "C5", "third"⟩

/-- A concrete Entrez-to-symbol lookup table knowing only the ID "1". -/
def e2gEx : String → Option String :=
  fun e => if e = "1" then some "GENE1" else Option.none

/-- A non-human entry whose single Entrez ID is mapped by `e2gEx`. -/
def entryMouse : MSigDBEntry :=
  ⟨"Mus_musculus", "M100", "MOUSE_SET", "C4", "a mouse set", "1"⟩

/-- A human entry with one mapped and one unmapped Entrez ID. -/
def entryHuman : MSigDBEntry :=
  ⟨"Homo_sapiens", "M200", "HUMAN_SET", "C2", "a human set", "1,7"⟩

/-- A human entry none of whose Entrez IDs are mapped by `e2gEx`. -/
def entryNoGenes : MSigDBEntry :=
  ⟨"Homo_sapiens", "M300", "EMPTY_SET", "C2", "an unmapped set", "8,9"⟩

/-- The condition checked by the `assert` statements of
`GeneSetDB.__init__`: a `list` or `tuple` whose members are all `GeneSet`
instances. -/
def PyVal.validDBArg : PyVal → Bool
  | .list xs => xs.all PyVal.isGeneSet
  | .tuple xs => xs.all PyVal.isGeneSet
  | _ => false

/-! ## Lemmas about the ordered-dict embedding -/

theorem odLookup_odInsert_self (l : List (String × α)) (k : String) (v : α) :
    odLookup (odInsert l k v) k = some v := by
  induction l with
  | nil => simp [odInsert, odLookup]
  | cons p rest ih =>
      obtain ⟨k', v'⟩ := p
      by_cases h : k' = k
      · simp [odInsert, h, odLookup]
      · simp [odInsert, h, odLookup, ih]

theorem odLookup_odInsert_ne (l : List (String × α)) (k k' : String) (v : α)
    (h : k ≠ k') : odLookup (odInsert l k v) k' = odLookup l k' := by
  induction l with
  | nil => simp [odInsert, odLookup, h]
  | cons p rest ih =>
      obtain ⟨k₀, v₀⟩ := p
      by_cases h₀ : k₀ = k
      · subst h₀
        simp [odInsert, odLookup, h]
      · simp [odInsert, odLookup, h₀, ih]

theorem mem_keys_odInsert (l : List (String × α)) (k k' : String) (v : α) :
    k' ∈ (odInsert l k v).map Prod.fst ↔ k' = k ∨ k' ∈ l.map Prod.fst := by
  induction l with
  | nil => simp [odInsert]
  | cons p rest ih =>
      obtain ⟨k₀, v₀⟩ := p
      by_cases h₀ : k₀ = k
      · subst h₀
        simp [odInsert]
      · simp [odInsert, h₀, ih]
        tauto

theorem keys_nodup_odInsert (l : List (String × α)) (k : String) (v : α)
    (h : (l.map Prod.fst).Nodup) : ((odInsert l k v).map Prod.fst).Nodup := by
  induction l with
  | nil => simp [odInsert]
  | cons p rest ih =>
      obtain ⟨k₀, v₀⟩ := p
      simp only [List.map_cons, List.nodup_cons] at h
      by_cases h₀ : k₀ = k
      · subst h₀
        simpa [odInsert] using h
      · have : ((odInsert rest k v).map Prod.fst).Nodup := ih h.2
        simp only [odInsert, h₀, if_false, List.map_cons, List.nodup_cons]
        refine ⟨?_, this⟩
        rw [mem_keys_odInsert]
        push_neg
        exact ⟨h₀, h.1⟩

theorem odInsert_of_not_mem (l : List (String × α)) (k : String) (v : α)
    (h : k ∉ l.map Prod.fst) : odInsert l k v = l ++ [(k, v)] := by
  induction l with
  | nil => simp [odInsert]
  | cons p rest ih =>
      obtain ⟨k₀, v₀⟩ := p
      simp only [List.map_cons, List.mem_cons] at h
      push_neg at h
      simp [odInsert, Ne.symm h.1, ih h.2]

theorem mem_pairs_odInsert (l : List (String × α)) (k : String) (v : α) :
    ∀ p ∈ odInsert l k v, p ∈ l ∨ p = (k, v) := by
  induction l with
  | nil =>
      intro p hp
      simpa [odInsert] using hp
  | cons q rest ih =>
      obtain ⟨k₀, v₀⟩ := q
      intro p hp
      by_cases h₀ : k₀ = k
      · subst h₀
        simp [odInsert] at hp
        rcases hp with hp | hp
        · right; simp [hp]
        · left; exact List.mem_cons_of_mem _ hp
      · simp [odInsert, h₀] at hp
        rcases hp with hp | hp
        · left; simp [hp]
        · rcases ih p hp with h' | h'
          · left; exact List.mem_cons_of_mem _ h'
          · right; exact h'

theorem odLookup_eq_none (l : List (String × α)) (k : String)
    (h : k ∉ l.map Prod.fst) : odLookup l k = none := by
  induction l with
  | nil => rfl
  | cons p rest ih =>
      obtain ⟨k₀, v₀⟩ := p
      simp only [List.map_cons, List.mem_cons] at h
      push_neg at h
      simp [odLookup, Ne.symm h.1, ih h.2]

theorem odLookup_get (l : List (String × α)) (hnd : (l.map Prod.fst).Nodup) :
    ∀ i : Fin l.length, odLookup l (l.get i).1 = some (l.get i).2 := by
  induction l with
  | nil =>
      intro i
      exact absurd i.2 (by simp)
  | cons p rest ih =>
      obtain ⟨k₀, v₀⟩ := p
      simp only [List.map_cons, List.nodup_cons] at hnd
      intro i
      match i with
      | ⟨0, _⟩ => simp [odLookup]
      | ⟨j + 1, hj⟩ =>
          have hj' : j < rest.length := by simpa using hj
          have hkey : (rest.get ⟨j, hj'⟩).1 ∈ rest.map Prod.fst := by
            exact List.mem_map_of_mem _ (rest.get_mem _ _)
          have hne : k₀ ≠ (rest.get ⟨j, hj'⟩).1 := by
            intro he
            exact hnd.1 (he ▸ hkey)
          have hstep : ((⟨k₀, v₀⟩ : String × α) :: rest).get ⟨j + 1, hj⟩ =
              rest.get ⟨j, hj'⟩ := rfl
          rw [hstep]
          show (if k₀ = (rest.get ⟨j, hj'⟩).1 then some v₀
            else odLookup rest (rest.get ⟨j, hj'⟩).1) = some (rest.get ⟨j, hj'⟩).2
          rw [if_neg hne]
          exact ih hnd.2 ⟨j, hj'⟩

theorem odFoldl_keys_mem (ps : List (String × α)) :
    ∀ (d : List (String × α)) (k : String),
      (k ∈ ((ps.foldl (fun d p => odInsert d p.1 p.2) d).map Prod.fst) ↔
        k ∈ d.map Prod.fst ∨ k ∈ ps.map Prod.fst) := by
  induction ps with
  | nil => simp
  | cons p rest ih =>
      intro d k
      simp only [List.foldl_cons, List.map_cons, List.mem_cons]
      rw [ih, mem_keys_odInsert]
      tauto

theorem odFoldl_keys_nodup (ps : List (String × α)) :
    ∀ d : List (String × α), (d.map Prod.fst).Nodup →
      (((ps.foldl (fun d p => odInsert d p.1 p.2) d)).map Prod.fst).Nodup := by
  induction ps with
  | nil => exact fun d h => h
  | cons p rest ih =>
      intro d h
      exact ih _ (keys_nodup_odInsert d p.1 p.2 h)

theorem odFoldl_pairs_mem (ps : List (String × α)) :
    ∀ (d : List (String × α)) (p : String × α),
      p ∈ ps.foldl (fun d q => odInsert d q.1 q.2) d → p ∈ d ∨ p ∈ ps := by
  induction ps with
  | nil =>
      intro d p hp
      exact Or.inl hp
  | cons q rest ih =>
      intro d p hp
      rcases ih _ p hp with h' | h'
      · rcases mem_pairs_odInsert d q.1 q.2 p h' with h'' | h''
        · exact Or.inl h''
        · right
          simp [h'']
      · right
        exact List.mem_cons_of_mem _ h'

theorem odFoldl_lookup (ps : List (String × α)) :
    ∀ (d : List (String × α)) (k : String),
      odLookup (ps.foldl (fun d p => odInsert d p.1 p.2) d) k =
        (match lastAssoc ps k with
         | some v => some v
         | none => odLookup d k) := by
  induction ps with
  | nil =>
      intro d k
      simp [lastAssoc]
  | cons p rest ih =>
      intro d k
      simp only [List.foldl_cons]
      rw [ih]
      cases hlast : lastAssoc rest k with
      | some v => simp [lastAssoc, hlast]
      | none =>
          by_cases hk : p.1 = k
          · simp [lastAssoc, hlast, hk, hk ▸ odLookup_odInsert_self d p.1 p.2]
          · simp [lastAssoc, hlast, hk, odLookup_odInsert_ne d p.1 k p.2 hk]

theorem mem_keys_odFromList (ps : List (String × α)) (k : String) :
    k ∈ (odFromList ps).map Prod.fst ↔ k ∈ ps.map Prod.fst := by
  rw [odFromList, odFoldl_keys_mem]
  simp

theorem odFromList_keys_nodup (ps : List (String × α)) :
    ((odFromList ps).map Prod.fst).Nodup :=
  odFoldl_keys_nodup ps [] (by simp)

theorem mem_pairs_odFromList (ps : List (String × α)) (p : String × α)
    (h : p ∈ odFromList ps) : p ∈ ps := by
  rcases odFoldl_pairs_mem ps [] p h with h' | h'
  · exact absurd h' (by simp)
  · exact h'

theorem odFromList_lookup (ps : List (String × α)) (k : String) :
    odLookup (odFromList ps) k = lastAssoc ps k := by
  rw [odFromList, odFoldl_lookup]
  cases lastAssoc ps k <;> simp [odLookup]

theorem odFoldl_of_fresh (ps : List (String × α)) :
    ∀ d : List (String × α), (ps.map Prod.fst).Nodup →
      (∀ k ∈ ps.map Prod.fst, k ∉ d.map Prod.fst) →
      ps.foldl (fun d p => odInsert d p.1 p.2) d = d ++ ps := by
  induction ps with
  | nil => simp
  | cons p rest ih =>
      intro d hnd hfresh
      simp only [List.map_cons, List.nodup_cons] at hnd
      have hp : p.1 ∉ d.map Prod.fst := hfresh p.1 (by simp)
      simp only [List.foldl_cons, odInsert_of_not_mem d p.1 p.2 hp]
      have : p = (p.1, p.2) := rfl
      rw [← this]
      have hfresh' : ∀ k ∈ rest.map Prod.fst, k ∉ (d ++ [p]).map Prod.fst := by
        intro k hk
        simp only [List.map_append, List.mem_append]
        push_neg
        constructor
        · exact hfresh k (List.mem_cons_of_mem _ hk)
        · simp only [List.map_cons, List.map_nil, List.mem_singleton]
          intro he
          exact hnd.1 (he ▸ hk)
      rw [ih (d ++ [p]) hnd.2 hfresh']
      simp

theorem odFromList_eq_self (ps : List (String × α))
    (h : (ps.map Prod.fst).Nodup) : odFromList ps = ps := by
  have := odFoldl_of_fresh ps [] h (by simp)
  simpa [odFromList] using this

theorem odFromList_length (ps : List (String × α)) :
    (odFromList ps).length = (ps.map Prod.fst).dedup.length := by
  have h1 : ((odFromList ps).map Prod.fst).Nodup := odFromList_keys_nodup ps
  have h2 : ((ps.map Prod.fst).dedup).Nodup := List.nodup_dedup _
  have hperm : List.Perm ((odFromList ps).map Prod.fst) ((ps.map Prod.fst).dedup) := by
    rw [List.perm_ext_iff_of_nodup h1 h2]
    intro k
    rw [mem_keys_odFromList, List.mem_dedup]
  have := hperm.length_eq
  simpa using this

/-! ## Invariants of constructed databases -/

theorem GeneSetDB.init_wf (l : List GeneSet) : (GeneSetDB.init l).wf := by
  constructor
  · exact odFromList_keys_nodup _
  · intro p hp
    have hm := mem_pairs_odFromList _ p hp
    simp only [List.mem_map] at hm
    obtain ⟨gs, _, he⟩ := hm
    rw [← he]

theorem idxPairs_keys (f : α → String) :
    ∀ (l : List α) (s : Nat),
      ((pyEnumerateFrom s l).map (fun p => (f p.2, p.1))).map Prod.fst = l.map f := by
  intro l
  induction l with
  | nil => intro s; rfl
  | cons a as ih =>
      intro s
      simp only [pyEnumerateFrom, List.map_cons, List.map_map]
      simpa using ih (s + 1)

theorem idxPairs_lookup (f : α → String) :
    ∀ (l : List α), (l.map f).Nodup →
      ∀ (s i : Nat) (h : i < l.length),
        odLookup ((pyEnumerateFrom s l).map (fun p => (f p.2, p.1)))
          (f (l.get ⟨i, h⟩)) = some (s + i) := by
  intro l
  induction l with
  | nil =>
      intro _ s i h
      exact absurd h (by simp)
  | cons a as ih =>
      intro hnd s i h
      simp only [List.map_cons, List.nodup_cons] at hnd
      match i with
      | 0 => simp [pyEnumerateFrom, odLookup]
      | j + 1 =>
          have hj : j < as.length := by simpa using h
          have hkey : f (as.get ⟨j, hj⟩) ∈ as.map f :=
            List.mem_map_of_mem f (as.get_mem _ _)
          have hne : f a ≠ f (as.get ⟨j, hj⟩) := by
            intro he
            exact hnd.1 (he ▸ hkey)
          have hstep : ((a :: as).get ⟨j + 1, h⟩) = as.get ⟨j, hj⟩ := rfl
          rw [hstep]
          simp only [pyEnumerateFrom, List.map_cons, odLookup, if_neg hne]
          have := ih hnd.2 (s + 1) j hj
          rw [this]
          congr 1
          omega

/-- On a well-formed database, the `_gene_set_indices` dict is built from
pairwise-distinct keys, so it is the plain list of `(id, position)` pairs. -/
theorem gene_set_indices_eq (db : GeneSetDB) (hwf : db.wf) :
    db.gene_set_indices =
      (pyEnumerate (db.gsDict.map Prod.snd)).map (fun p => (p.2.id, p.1)) := by
  apply odFromList_eq_self
  rw [pyEnumerate, idxPairs_keys]
  have hcongr : (db.gsDict.map Prod.snd).map GeneSet.id = db.gsDict.map Prod.fst := by
    rw [List.map_map]
    apply List.map_congr_left
    intro p hp
    exact (hwf.2 p hp).symm
  rw [hcongr]
  exact hwf.1

theorem pyTupleGet_nat (l : List α) (i : Nat) (h : i < l.length) :
    pyTupleGet l (i : Int) = .ok (l.get ⟨i, h⟩) := by
  have hn : pyNormIdx (i : Int) l.length = (i : Int) := by
    simp [pyNormIdx]
  have hcond : 0 ≤ pyNormIdx (i : Int) l.length ∧
      pyNormIdx (i : Int) l.length < (l.length : Int) := by
    rw [hn]
    constructor
    · exact Int.ofNat_nonneg i
    · exact_mod_cast h
  rw [pyTupleGet, dif_pos hcond]
  simp [hn]

theorem pyTupleGet_neg_small (l : List α) (i : Int) (h0 : -(l.length : Int) ≤ i)
    (h1 : i ≤ -1) :
    pyTupleGet l i = pyTupleGet l (i + (l.length : Int)) := by
  have hlt : i < 0 := by omega
  have hn : pyNormIdx i l.length = i + (l.length : Int) := by
    simp [pyNormIdx, hlt]
  have hn2 : pyNormIdx (i + (l.length : Int)) l.length = i + (l.length : Int) := by
    have : ¬ (i + (l.length : Int) < 0) := by omega
    simp [pyNormIdx, this]
  simp only [pyTupleGet, hn, hn2]

theorem pyTupleGet_neg_big (l : List α) (i : Int) (h : i < -(l.length : Int)) :
    pyTupleGet l i = .error (.indexError "tuple index out of range") := by
  have hlt : i < 0 := by
    have hlen : (0 : Int) ≤ (l.length : Int) := Int.ofNat_nonneg _
    omega
  have hn : pyNormIdx i l.length = i + (l.length : Int) := by
    simp [pyNormIdx, hlt]
  have hcond : ¬ (0 ≤ pyNormIdx i l.length ∧
      pyNormIdx i l.length < (l.length : Int)) := by
    rw [hn]
    omega
  rw [pyTupleGet, dif_neg hcond]

theorem get_by_index_ok (db : GeneSetDB) (hwf : db.wf) (i : Nat) (h : i < db.n) :
    db.get_by_index (i : Int) = .ok (db.gsDict.get ⟨i, h⟩).2 := by
  have hids : i < db.gene_set_ids.length := by
    simpa [GeneSetDB.gene_set_ids] using h
  have hnotge : ¬ ((i : Int) ≥ (db.n : Int)) := by
    push_neg
    exact_mod_cast h
  have hkey : db.gene_set_ids.get ⟨i, hids⟩ = (db.gsDict.get ⟨i, h⟩).1 := by
    simp [GeneSetDB.gene_set_ids]
  rw [GeneSetDB.get_by_index, if_neg hnotge, pyTupleGet_nat db.gene_set_ids i hids,
    hkey]
  have hlook : odLookup db.gsDict (db.gsDict.get ⟨i, h⟩).1 =
      some (db.gsDict.get ⟨i, h⟩).2 := odLookup_get db.gsDict hwf.1 ⟨i, h⟩
  simp only [List.get_eq_getElem] at hlook
  simp [hlook]

theorem get_by_id_ok (db : GeneSetDB) (hwf : db.wf) (i : Nat) (h : i < db.n) :
    db.get_by_id ((db.gsDict.get ⟨i, h⟩).2.id) = .ok (db.gsDict.get ⟨i, h⟩).2 := by
  have hid : (db.gsDict.get ⟨i, h⟩).1 = (db.gsDict.get ⟨i, h⟩).2.id :=
    hwf.2 _ (db.gsDict.get_mem _ _)
  have hlook : odLookup db.gsDict ((db.gsDict.get ⟨i, h⟩).2.id) =
      some (db.gsDict.get ⟨i, h⟩).2 := by
    rw [← hid]
    exact odLookup_get db.gsDict hwf.1 ⟨i, h⟩
  rw [GeneSetDB.get_by_id, hlook]

theorem index_ok (db : GeneSetDB) (hwf : db.wf) (i : Nat) (h : i < db.n) :
    db.index ((db.gsDict.get ⟨i, h⟩).2.id) = .ok i := by
  have hval : i < (db.gsDict.map Prod.snd).length := by
    simpa [GeneSetDB.n] using h
  have hvals_nodup : ((db.gsDict.map Prod.snd).map GeneSet.id).Nodup := by
    have hcongr : (db.gsDict.map Prod.snd).map GeneSet.id =
        db.gsDict.map Prod.fst := by
      rw [List.map_map]
      apply List.map_congr_left
      intro p hp
      exact (hwf.2 p hp).symm
    rw [hcongr]
    exact hwf.1
  have hget : (db.gsDict.map Prod.snd).get ⟨i, hval⟩ = (db.gsDict.get ⟨i, h⟩).2 := by
    simp
  have hlook := idxPairs_lookup GeneSet.id (db.gsDict.map Prod.snd) hvals_nodup 0 i hval
  rw [hget] at hlook
  rw [GeneSetDB.index, gene_set_indices_eq db hwf, pyEnumerate, hlook]
  simp

theorem gene_set_ids_length (db : GeneSetDB) : db.gene_set_ids.length = db.n := by
  simp [GeneSetDB.gene_set_ids, GeneSetDB.n]

theorem get_by_id_err (db : GeneSetDB) (id_ : String)
    (h : id_ ∉ db.gene_set_ids) :
    db.get_by_id id_ =
      .error (.valueError ("No gene set with ID \"" ++ id_ ++ "\"!")) := by
  have hnone : odLookup db.gsDict id_ = none :=
    odLookup_eq_none db.gsDict id_ h
  rw [GeneSetDB.get_by_id, hnone]

theorem index_err (db : GeneSetDB) (hwf : db.wf) (id_ : String)
    (h : id_ ∉ db.gene_set_ids) :
    db.index id_ =
      .error (.valueError ("No gene set with ID \"" ++ id_ ++ "\"!")) := by
  have hkeys : ((pyEnumerate (db.gsDict.map Prod.snd)).map
      (fun p => (p.2.id, p.1))).map Prod.fst = db.gsDict.map Prod.fst := by
    rw [pyEnumerate, idxPairs_keys, List.map_map]
    apply List.map_congr_left
    intro p hp
    exact (hwf.2 p hp).symm
  have hnone : odLookup ((pyEnumerate (db.gsDict.map Prod.snd)).map
      (fun p => (p.2.id, p.1))) id_ = none := by
    apply odLookup_eq_none
    rw [hkeys]
    exact h
  rw [GeneSetDB.index, gene_set_indices_eq db hwf, hnone]

theorem get_by_index_err (db : GeneSetDB) (i : Int) (h : i ≥ (db.n : Int)) :
    db.get_by_index i =
      .error (.valueError ("Index " ++ toString i ++ " out of bounds " ++
        "for database with " ++ toString db.n ++ " gene sets.")) := by
  rw [GeneSetDB.get_by_index, if_pos h]

theorem get_by_index_neg_small (db : GeneSetDB) (i : Int)
    (h0 : -(db.n : Int) ≤ i) (h1 : i ≤ -1) :
    db.get_by_index i = db.get_by_index (i + (db.n : Int)) := by
  have hn0 : (0 : Int) ≤ (db.n : Int) := Int.ofNat_nonneg _
  have hc1 : ¬ (i ≥ (db.n : Int)) := by omega
  have hc2 : ¬ (i + (db.n : Int) ≥ (db.n : Int)) := by omega
  have hpt : pyTupleGet db.gene_set_ids i =
      pyTupleGet db.gene_set_ids (i + (db.n : Int)) := by
    have := pyTupleGet_neg_small db.gene_set_ids i
      (by rw [gene_set_ids_length]; exact h0) h1
    rwa [gene_set_ids_length] at this
  rw [GeneSetDB.get_by_index, if_neg hc1, GeneSetDB.get_by_index, if_neg hc2, hpt]

theorem get_by_index_neg_big (db : GeneSetDB) (i : Int)
    (h : i < -(db.n : Int)) :
    db.get_by_index i = .error (.indexError "tuple index out of range") := by
  have hn0 : (0 : Int) ≤ (db.n : Int) := Int.ofNat_nonneg _
  have hc1 : ¬ (i ≥ (db.n : Int)) := by omega
  have hpt : pyTupleGet db.gene_set_ids i =
      .error (.indexError "tuple index out of range") := by
    apply pyTupleGet_neg_big
    rw [gene_set_ids_length]
    exact h
  rw [GeneSetDB.get_by_index, if_neg hc1, hpt]

theorem init_gsDict_of_nodup (l : List GeneSet)
    (h : (l.map GeneSet.id).Nodup) :
    (GeneSetDB.init l).gsDict = l.map (fun gs => (gs.id, gs)) := by
  apply odFromList_eq_self
  simpa [List.map_map] using h

theorem mem_gene_set_ids_init (l : List GeneSet) (k : String) :
    k ∈ (GeneSetDB.init l).gene_set_ids ↔ k ∈ l.map GeneSet.id := by
  rw [GeneSetDB.gene_set_ids, GeneSetDB.init]
  rw [mem_keys_odFromList]
  simp [List.map_map]

theorem init_n_eq_dedup_length (l : List GeneSet) :
    (GeneSetDB.init l).n = (l.map GeneSet.id).dedup.length := by
  rw [GeneSetDB.n, GeneSetDB.init]
  rw [odFromList_length]
  have hkeys : (l.map (fun gs => (gs.id, gs))).map Prod.fst = l.map GeneSet.id := by
    rw [List.map_map]
    rfl
  rw [hkeys]

theorem lastAssoc_map_id (l : List GeneSet) (k : String) :
    lastAssoc (l.map (fun gs => (gs.id, gs))) k = lastWithId l k := by
  induction l with
  | nil => rfl
  | cons gs rest ih =>
      simp only [List.map_cons, lastAssoc, lastWithId, ih]
      cases lastWithId rest k <;> rfl

theorem init_get_by_id_last (l : List GeneSet) (k : String) (gs : GeneSet)
    (h : lastWithId l k = some gs) :
    (GeneSetDB.init l).get_by_id k = .ok gs := by
  have hlook : odLookup (GeneSetDB.init l).gsDict k = some gs := by
    rw [GeneSetDB.init]
    show odLookup (odFromList _) k = _
    rw [odFromList_lookup, lastAssoc_map_id, h]
  rw [GeneSetDB.get_by_id, hlook]

/-! ## MSigDB ingestion: characterization -/

theorem msigMapGenes_foldl (e2g : String → Option String) :
    ∀ (entrez : List String) (g0 : List String) (tg u : Nat),
      entrez.foldl
        (fun acc e =>
          match e2g e with
          | some g => (acc.1 ++ [g], acc.2.1 + 1, acc.2.2)
          | none => (acc.1, acc.2.1 + 1, acc.2.2 + 1))
        (g0, tg, u) =
      (g0 ++ entrez.filterMap e2g, tg + entrez.length,
        u + entrez.countP (fun e => (e2g e).isNone)) := by
  intro entrez
  induction entrez with
  | nil =>
      intro g0 tg u
      simp
  | cons e rest ih =>
      intro g0 tg u
      rw [List.foldl_cons]
      cases he : e2g e with
      | some g =>
          simp only [he]
          rw [ih (g0 ++ [g]) (tg + 1) u]
          simp [Prod.ext_iff, List.filterMap_cons, he, List.countP_cons,
            List.append_assoc]
          omega
      | none =>
          simp only [he]
          rw [ih g0 (tg + 1) (u + 1)]
          simp [Prod.ext_iff, List.filterMap_cons, he, List.countP_cons]
          omega

theorem msigMapGenes_spec (e2g : String → Option String)
    (entrez : List String) (tg u : Nat) :
    msigMapGenes e2g entrez tg u =
      (entrez.filterMap e2g, tg + entrez.length,
        u + entrez.countP (fun e => (e2g e).isNone)) := by
  rw [msigMapGenes]
  exact msigMapGenes_foldl e2g entrez [] tg u

theorem handle_body_spec (e2g : String → Option String) (st : MsigState)
    (data : MSigDBEntry) :
    handle_body e2g st data =
      { st with
        total_genes := st.total_genes + (pySplitComma data.members_ezid).length,
        unknown_entrezid := st.unknown_entrezid +
          (pySplitComma data.members_ezid).countP (fun e => (e2g e).isNone),
        gene_sets := st.gene_sets ++ (entryGeneSet e2g data).toList } := by
  rw [handle_body]
  simp only [msigMapGenes_spec]
  by_cases hg : (pySplitComma data.members_ezid).filterMap e2g = []
  · have hempty : ((pySplitComma data.members_ezid).filterMap e2g).isEmpty = true := by
      simp [hg]
    simp [hempty, entryGeneSet, entryGenes, hg]
  · have hempty : ((pySplitComma data.members_ezid).filterMap e2g).isEmpty = false := by
      simpa [List.isEmpty_iff] using hg
    simp [hempty, entryGeneSet, entryGenes, hg]

theorem handle_item_spec (e2g : String → Option String)
    (species : Option String) (st : MsigState) (data : MSigDBEntry) :
    (handle_item e2g species st data).gene_sets =
        st.gene_sets ++ (processEntry e2g species data).toList
    ∧ (handle_item e2g species st data).total_gs = st.total_gs + 1
    ∧ (handle_item e2g species st data).species_excl =
        st.species_excl + (if speciesPass species data then 0 else 1) := by
  rw [handle_item.eq_def]
  cases species with
  | none =>
      simp only [speciesPass, handle_body_spec, processEntry]
      simp
  | some sp =>
      by_cases ho : data.organism = sp
      · simp only [speciesPass, processEntry, ho]
        simp [handle_body_spec]
      · simp only [speciesPass, processEntry, ho]
        simp [ho]

theorem msigdbFold_spec (e2g : String → Option String)
    (species : Option String) :
    ∀ (entries : List MSigDBEntry) (st : MsigState),
      (entries.foldl (handle_item e2g species) st).gene_sets =
          st.gene_sets ++ entries.filterMap (processEntry e2g species)
      ∧ (entries.foldl (handle_item e2g species) st).total_gs =
          st.total_gs + entries.length
      ∧ (entries.foldl (handle_item e2g species) st).species_excl =
          st.species_excl +
            entries.countP (fun e => !(speciesPass species e)) := by
  intro entries
  induction entries with
  | nil =>
      intro st
      simp
  | cons data rest ih =>
      intro st
      rw [List.foldl_cons]
      obtain ⟨h1, h2, h3⟩ := ih (handle_item e2g species st data)
      obtain ⟨g1, g2, g3⟩ := handle_item_spec e2g species st data
      refine ⟨?_, ?_, ?_⟩
      · rw [h1, g1, List.filterMap_cons]
        cases hp : processEntry e2g species data <;> simp [hp]
      · rw [h2, g2, List.length_cons]
        omega
      · rw [h3, g3, List.countP_cons]
        by_cases hs : speciesPass species data
        · simp [hs]
        · simp only [hs, Bool.not_false, if_neg]
          simp
          omega

theorem msigdbRun_gene_sets (e2g : String → Option String)
    (species : Option String) (entries : List MSigDBEntry) :
    (msigdbRun e2g species entries).gene_sets =
      entries.filterMap (processEntry e2g species) := by
  have := (msigdbFold_spec e2g species entries MsigState.start).1
  simpa [msigdbRun, MsigState.start] using this

theorem msigdbRun_total_gs (e2g : String → Option String)
    (species : Option String) (entries : List MSigDBEntry) :
    (msigdbRun e2g species entries).total_gs = entries.length := by
  have := (msigdbFold_spec e2g species entries MsigState.start).2.1
  simpa [msigdbRun, MsigState.start] using this

theorem msigdbRun_species_excl (e2g : String → Option String)
    (species : Option String) (entries : List MSigDBEntry) :
    (msigdbRun e2g species entries).species_excl =
      entries.countP (fun e => !(speciesPass species e)) := by
  have := (msigdbFold_spec e2g species entries MsigState.start).2.2
  simpa [msigdbRun, MsigState.start] using this

/-! ## Claim theorems -/

theorem from_list_to_list (gs : GeneSet) :
    GeneSet.from_list (GeneSet.to_list gs) = gs := rfl

/-- C1: for every list of gene sets with pairwise-distinct identifiers,
writing the database with `write_tsv` and reading the rows back with
`read_tsv` yields a database equal to the original (write-then-read
round-trip law). -/
theorem claim_C1_write_read_roundtrip (l : List GeneSet)
    (h : (l.map GeneSet.id).Nodup) :
    GeneSetDB.read_tsv (GeneSetDB.write_tsv (GeneSetDB.init l)) =
      GeneSetDB.init l := by
  have hd := init_gsDict_of_nodup l h
  rw [GeneSetDB.write_tsv, GeneSetDB.read_tsv, hd]
  have h1 : (l.map (fun gs => (gs.id, gs))).map Prod.snd = l := by
    rw [List.map_map]
    exact List.map_id l
  rw [h1, List.map_map]
  have h2 : l.map (GeneSet.from_list ∘ GeneSet.to_list) = l := by
    have hp : ∀ gs ∈ l, (GeneSet.from_list ∘ GeneSet.to_list) gs = id gs :=
      fun gs _ => from_list_to_list gs
    rw [List.map_congr_left hp, List.map_id]
  rw [h2]

theorem claim_C1_write_read_roundtrip_witness :
    ([gsA, gsB].map GeneSet.id).Nodup ∧
      GeneSetDB.read_tsv (GeneSetDB.write_tsv (GeneSetDB.init [gsA, gsB])) =
        GeneSetDB.init [gsA, gsB] :=
  ⟨by decide, claim_C1_write_read_roundtrip [gsA, gsB] (by decide)⟩

/-- C2: on every constructed database and every position `i < n`, looking up
by position, looking up by that gene set's identifier, and asking for the
identifier's position agree: they return the same gene set, and `index`
returns `i`. -/
theorem claim_C2_lookup_agreement (l : List GeneSet) (i : Nat)
    (h : i < (GeneSetDB.init l).n) :
    ∃ gs : GeneSet,
      (GeneSetDB.init l).get_by_index (i : Int) = .ok gs
      ∧ (GeneSetDB.init l).get_by_id gs.id = .ok gs
      ∧ (GeneSetDB.init l).index gs.id = .ok i := by
  refine ⟨((GeneSetDB.init l).gsDict.get ⟨i, h⟩).2, ?_, ?_, ?_⟩
  · exact get_by_index_ok _ (GeneSetDB.init_wf l) i h
  · exact get_by_id_ok _ (GeneSetDB.init_wf l) i h
  · exact index_ok _ (GeneSetDB.init_wf l) i h

theorem claim_C2_lookup_agreement_witness :
    1 < (GeneSetDB.init [gsA, gsB]).n ∧
      (∃ gs : GeneSet,
        (GeneSetDB.init [gsA, gsB]).get_by_index ((1 : Nat) : Int) = .ok gs
        ∧ (GeneSetDB.init [gsA, gsB]).get_by_id gs.id = .ok gs
        ∧ (GeneSetDB.init [gsA, gsB]).index gs.id = .ok 1) :=
  ⟨by decide, claim_C2_lookup_agreement [gsA, gsB] 1 (by decide)⟩

/-- C3: `get_by_id` and `index` on an identifier absent from the database
both fail with the same `ValueError` and its descriptive message, and
`get_by_index` on a position `i ≥ n` fails with a `ValueError` carrying the
out-of-bounds message. -/
theorem claim_C3_lookup_failures (l : List GeneSet) (id_ : String) (i : Int) :
    (id_ ∉ (GeneSetDB.init l).gene_set_ids →
      (GeneSetDB.init l).get_by_id id_ =
          .error (.valueError ("No gene set with ID \"" ++ id_ ++ "\"!"))
      ∧ (GeneSetDB.init l).index id_ =
          .error (.valueError ("No gene set with ID \"" ++ id_ ++ "\"!")))
    ∧ (i ≥ ((GeneSetDB.init l).n : Int) →
      (GeneSetDB.init l).get_by_index i =
        .error (.valueError ("Index " ++ toString i ++ " out of bounds " ++
          "for database with " ++ toString (GeneSetDB.init l).n ++
          " gene sets."))) := by
  refine ⟨fun h => ⟨get_by_id_err _ _ h, index_err _ (GeneSetDB.init_wf l) _ h⟩,
    fun h => get_by_index_err _ i h⟩

theorem claim_C3_lookup_failures_witness :
    (GeneSetDB.init [gsA]).get_by_id "GS-X" =
        .error (.valueError ("No gene set with ID \"" ++ "GS-X" ++ "\"!"))
    ∧ (GeneSetDB.init [gsA]).index "GS-X" =
        .error (.valueError ("No gene set with ID \"" ++ "GS-X" ++ "\"!"))
    ∧ (GeneSetDB.init [gsA]).get_by_index 5 =
        .error (.valueError ("Index " ++ toString (5 : Int) ++
          " out of bounds " ++ "for database with " ++
          toString (GeneSetDB.init [gsA]).n ++ " gene sets.")) := by
  have h := claim_C3_lookup_failures [gsA] "GS-X" 5
  have h1 := h.1 (by decide)
  have h2 := h.2 (by decide)
  exact ⟨h1.1, h1.2, h2⟩

/-- C4: when the input identifiers are pairwise distinct, the database's
length equals the number of input records and the record at position `i` is
the `i`-th input record (insertion order defines the index-to-record
mapping). -/
theorem claim_C4_insertion_order (l : List GeneSet)
    (h : (l.map GeneSet.id).Nodup) :
    (GeneSetDB.init l).n = l.length
    ∧ ∀ (i : Nat) (hi : i < l.length),
        (GeneSetDB.init l).get_by_index (i : Int) = .ok (l.get ⟨i, hi⟩) := by
  have hd := init_gsDict_of_nodup l h
  have hn : (GeneSetDB.init l).n = l.length := by
    rw [GeneSetDB.n, hd, List.length_map]
  refine ⟨hn, ?_⟩
  intro i hi
  have hn' : i < (GeneSetDB.init l).n := by rw [hn]; exact hi
  rw [get_by_index_ok _ (GeneSetDB.init_wf l) i hn']
  have hq : (GeneSetDB.init l).gsDict.get? i = some ((l.get ⟨i, hi⟩).id, l.get ⟨i, hi⟩) := by
    rw [hd, List.get?_map, List.get?_eq_get hi]
    rfl
  have hq' : (GeneSetDB.init l).gsDict.get? i =
      some ((GeneSetDB.init l).gsDict.get ⟨i, hn'⟩) := List.get?_eq_get hn'
  rw [hq] at hq'
  have := Option.some.inj hq'
  rw [← this]

theorem claim_C4_insertion_order_witness :
    (GeneSetDB.init [gsA, gsB]).n = [gsA, gsB].length
    ∧ (GeneSetDB.init [gsA, gsB]).get_by_index ((1 : Nat) : Int) =
        .ok ([gsA, gsB].get ⟨1, by decide⟩) := by
  have h := claim_C4_insertion_order [gsA, gsB] (by decide)
  exact ⟨h.1, h.2 1 (by decide)⟩

/-- C5: an input list with repeated identifiers is accepted without failure;
the later record overwrites the earlier one, the resulting database holds
exactly one record per distinct identifier, and its length is the number of
distinct identifiers. -/
theorem claim_C5_duplicate_overwrite (l : List GeneSet)
    (h : ¬ (l.map GeneSet.id).Nodup) :
    GeneSetDB.initChecked (PyVal.list (l.map PyVal.geneSet)) =
        .ok (GeneSetDB.init l)
    ∧ (GeneSetDB.init l).gene_set_ids.Nodup
    ∧ (∀ k : String, k ∈ (GeneSetDB.init l).gene_set_ids ↔ k ∈ l.map GeneSet.id)
    ∧ (GeneSetDB.init l).n = (l.map GeneSet.id).dedup.length
    ∧ (∀ (k : String) (gs : GeneSet), lastWithId l k = some gs →
        (GeneSetDB.init l).get_by_id k = .ok gs) := by
  refine ⟨?_, (GeneSetDB.init_wf l).1, mem_gene_set_ids_init l,
    init_n_eq_dedup_length l, init_get_by_id_last l⟩
  have hall : (l.map PyVal.geneSet).all PyVal.isGeneSet = true := by
    rw [List.all_eq_true]
    intro v hv
    rcases List.mem_map.mp hv with ⟨gs, _, he⟩
    rw [← he]
    rfl
  have hex : PyVal.extractGeneSets (l.map PyVal.geneSet) = l := by
    rw [PyVal.extractGeneSets, List.filterMap_map]
    have : ∀ gs ∈ l,
        ((fun v => match v with
          | PyVal.geneSet gs => some gs
          | _ => Option.none) ∘ PyVal.geneSet) gs = some gs := fun gs _ => rfl
    rw [List.filterMap_congr this]
    exact List.filterMap_some l
  rw [GeneSetDB.initChecked, hall]
  simp only [if_true, hex]

theorem claim_C5_duplicate_overwrite_witness :
    GeneSetDB.initChecked (PyVal.list ([gsB, gsB2].map PyVal.geneSet)) =
        .ok (GeneSetDB.init [gsB, gsB2])
    ∧ (GeneSetDB.init [gsB, gsB2]).n = ([gsB, gsB2].map GeneSet.id).dedup.length
    ∧ (GeneSetDB.init [gsB, gsB2]).get_by_id "GS-B" = .ok gsB2 := by
  have h := claim_C5_duplicate_overwrite [gsB, gsB2] (by decide)
  exact ⟨h.1, h.2.2.2.1, h.2.2.2.2 "GS-B" gsB2 (by decide)⟩

/-- C6 counterexample: in an ingestion run with a species filter, an entry
with at least one mapped identifier is nevertheless NOT retained when its
organism differs from the filter, refuting the unconditional retention half
of the claim at a concrete input. -/
theorem claim_C6_counterexample :
    entryGenes e2gEx entryMouse ≠ []
    ∧ (GeneSetDB.read_msigdb_xml e2gEx (some "Homo_sapiens") [entryMouse]).n
        = 0 := by
  constructor
  · decide
  · decide

/-- C6 (amended): the gene sets collected by an MSigDB ingestion run are
exactly the per-entry results of `processEntry`, and the resulting database
is built from them; an entry all of whose Entrez identifiers fail to map
contributes nothing (it is excluded); an entry with at least one mapped
identifier that also passes the species filter is retained with exactly its
mapped display names as members. -/
theorem claim_C6_amended_unmapped_dropped (e2g : String → Option String)
    (species : Option String) (entries : List MSigDBEntry) :
    (msigdbRun e2g species entries).gene_sets =
        entries.filterMap (processEntry e2g species)
    ∧ GeneSetDB.read_msigdb_xml e2g species entries =
        GeneSetDB.init (entries.filterMap (processEntry e2g species))
    ∧ (∀ data : MSigDBEntry, entryGenes e2g data = [] →
        processEntry e2g species data = Option.none)
    ∧ (∀ data : MSigDBEntry, speciesPass species data = true →
        entryGenes e2g data ≠ [] →
        processEntry e2g species data =
          some ⟨data.systematic_name, data.standard_name, entryGenes e2g data,
            "MSigDB", data.category_code, data.description_brief⟩) := by
  refine ⟨msigdbRun_gene_sets e2g species entries, ?_, ?_, ?_⟩
  · rw [GeneSetDB.read_msigdb_xml, msigdbRun_gene_sets]
  · intro data hg
    cases hs : speciesPass species data
    · simp [processEntry, hs]
    · simp [processEntry, hs, entryGeneSet, hg]
  · intro data hs hg
    simp [processEntry, hs, entryGeneSet, hg]

theorem claim_C6_amended_unmapped_dropped_witness :
    processEntry e2gEx (some "Homo_sapiens") entryNoGenes = Option.none
    ∧ processEntry e2gEx (some "Homo_sapiens") entryHuman =
        some ⟨"M200", "HUMAN_SET", entryGenes e2gEx entryHuman,
          "MSigDB", "C2", "a human set"⟩ := by
  have h := claim_C6_amended_unmapped_dropped e2gEx (some "Homo_sapiens")
    [entryNoGenes, entryHuman]
  constructor
  · exact h.2.2.1 entryNoGenes (by decide)
  · exact h.2.2.2 entryHuman (by decide) (by decide)

/-- The number of entries failing a species filter is the total minus the
number of matching entries. -/
theorem species_excl_count (sp : String) (entries : List MSigDBEntry) :
    entries.countP (fun e => !(speciesPass (some sp) e)) =
      entries.length - entries.countP (fun e => e.organism = sp) := by
  induction entries with
  | nil => rfl
  | cons e rest ih =>
      have hle : rest.countP (fun x => x.organism = sp) ≤ rest.length :=
        List.countP_le_length _
      rw [List.countP_cons, List.countP_cons, List.length_cons]
      by_cases ho : e.organism = sp
      · simp [speciesPass, ho] at ih ⊢
        omega
      · simp [speciesPass, ho] at ih ⊢
        omega

/-- Every gene set stored in a constructed database is one of the input
records. -/
theorem mem_gene_sets_init (l : List GeneSet) (gs : GeneSet)
    (h : gs ∈ (GeneSetDB.init l).gene_sets) : gs ∈ l := by
  rw [GeneSetDB.gene_sets] at h
  rcases List.mem_map.mp h with ⟨p, hp, he⟩
  have hps := mem_pairs_odFromList _ p hp
  rcases List.mem_map.mp hps with ⟨g, hg, he2⟩
  rw [← he, ← he2]
  exact hg

/-- C7: with a species filter, every gene set in the resulting database
originates from an entry whose organism equals the filter, the entry counter
equals the number of entries, and the reported species-exclusion count
equals the total number of entries minus the number of entries matching the
filter. -/
theorem claim_C7_species_filter (e2g : String → Option String) (sp : String)
    (entries : List MSigDBEntry) :
    (∀ gs ∈ (GeneSetDB.read_msigdb_xml e2g (some sp) entries).gene_sets,
      ∃ data ∈ entries, data.organism = sp
        ∧ processEntry e2g (some sp) data = some gs)
    ∧ (msigdbRun e2g (some sp) entries).total_gs = entries.length
    ∧ (msigdbRun e2g (some sp) entries).species_excl =
        entries.length - entries.countP (fun e => e.organism = sp) := by
  refine ⟨?_, msigdbRun_total_gs e2g (some sp) entries, ?_⟩
  · intro gs hgs
    rw [GeneSetDB.read_msigdb_xml] at hgs
    have hmem := mem_gene_sets_init _ gs hgs
    rw [msigdbRun_gene_sets] at hmem
    rcases List.mem_filterMap.mp hmem with ⟨data, hdata, hp⟩
    refine ⟨data, hdata, ?_, hp⟩
    by_contra ho
    rw [processEntry] at hp
    have : speciesPass (some sp) data = false := by
      simp [speciesPass, ho]
    rw [this] at hp
    simp at hp
  · rw [msigdbRun_species_excl, species_excl_count]

theorem claim_C7_species_filter_witness :
    (msigdbRun e2gEx (some "Homo_sapiens") [entryMouse, entryHuman]).total_gs
        = 2
    ∧ (msigdbRun e2gEx (some "Homo_sapiens") [entryMouse, entryHuman]).species_excl
        = 2 - [entryMouse, entryHuman].countP
            (fun e => e.organism = "Homo_sapiens") := by
  have h := claim_C7_species_filter e2gEx "Homo_sapiens" [entryMouse, entryHuman]
  exact ⟨h.2.1, h.2.2⟩

/-- C8: constructing a `GeneSetDB` from anything other than a list or tuple
of `GeneSet` instances fails with an `AssertionError`; on a list or tuple of
`GeneSet` instances no assertion fires and construction succeeds. -/
theorem claim_C8_constructor_asserts (v : PyVal) :
    (PyVal.validDBArg v = false →
      GeneSetDB.initChecked v = .error .assertionError)
    ∧ (PyVal.validDBArg v = true →
      ∃ db : GeneSetDB, GeneSetDB.initChecked v = .ok db) := by
  constructor
  · intro h
    cases v <;> simp_all [PyVal.validDBArg, GeneSetDB.initChecked]
  · intro h
    cases v <;> simp_all [PyVal.validDBArg, GeneSetDB.initChecked]

theorem claim_C8_constructor_asserts_witness :
    GeneSetDB.initChecked (PyVal.str "oops") = .error .assertionError
    ∧ (∃ db : GeneSetDB,
        GeneSetDB.initChecked (PyVal.tuple [PyVal.geneSet gsA]) = .ok db) := by
  refine ⟨(claim_C8_constructor_asserts (PyVal.str "oops")).1 rfl, ?_⟩
  exact (claim_C8_constructor_asserts (PyVal.tuple [PyVal.geneSet gsA])).2 rfl

/-- C10: on a database with at least one gene set, `get_by_index` with a
negative position `i` in `[-n, -1]` does not raise the documented
out-of-range `ValueError` but behaves as the lookup at position `n + i`
(which succeeds), while `i < -n` fails with the `IndexError` of Python
tuple indexing rather than a `ValueError`. -/
theorem claim_C10_negative_index (l : List GeneSet)
    (hn : 1 ≤ (GeneSetDB.init l).n) (i : Int) :
    ((-((GeneSetDB.init l).n : Int) ≤ i ∧ i ≤ -1) →
      (GeneSetDB.init l).get_by_index i =
          (GeneSetDB.init l).get_by_index (i + ((GeneSetDB.init l).n : Int))
      ∧ ∃ gs : GeneSet,
          (GeneSetDB.init l).get_by_index
            (i + ((GeneSetDB.init l).n : Int)) = .ok gs)
    ∧ (i < -((GeneSetDB.init l).n : Int) →
      (GeneSetDB.init l).get_by_index i =
        .error (.indexError "tuple index out of range")) := by
  constructor
  · rintro ⟨h0, h1⟩
    refine ⟨get_by_index_neg_small _ i h0 h1, ?_⟩
    have hj : (i + ((GeneSetDB.init l).n : Int)).toNat < (GeneSetDB.init l).n := by
      omega
    have hcast : i + ((GeneSetDB.init l).n : Int) =
        (((i + ((GeneSetDB.init l).n : Int)).toNat : Nat) : Int) := by
      omega
    refine ⟨((GeneSetDB.init l).gsDict.get
      ⟨(i + ((GeneSetDB.init l).n : Int)).toNat, hj⟩).2, ?_⟩
    conv_lhs => rw [hcast]
    exact get_by_index_ok _ (GeneSetDB.init_wf l) _ hj
  · intro h
    exact get_by_index_neg_big _ i h

theorem claim_C10_negative_index_witness :
    (GeneSetDB.init [gsA, gsB]).get_by_index (-1) =
        (GeneSetDB.init [gsA, gsB]).get_by_index
          ((-1) + ((GeneSetDB.init [gsA, gsB]).n : Int))
    ∧ (GeneSetDB.init [gsA, gsB]).get_by_index (-5) =
        .error (.indexError "tuple index out of range") := by
  have h1 := (claim_C10_negative_index [gsA, gsB] (by decide) (-1)).1
    (by constructor <;> decide)
  have h2 := (claim_C10_negative_index [gsA, gsB] (by decide) (-5)).2
    (by decide)
  exact ⟨h1.1, h2⟩
